import Mathlib

/-!
# Verification of the GKE kubeconfig merge (credential-file synthesizer)

Shallow embedding of the `getKubeconfig` tool handler from the `cluster`
package.  The handler resolves a GKE cluster to an endpoint and CA
certificate, loads the user's kubeconfig file (bootstrapping an empty one
when the file is absent), upserts a cluster / context / user entry under
the deterministic name `gke_<projectID>_<location>_<clusterName>`, points
`current-context` at that name, and writes the file back.

External collaborators (the cluster-manager API call, the YAML
parser/marshaller, the filesystem) are modelled by their outcomes:
the resolver result is an input of type `Except ResolveError ResolverOutput`,
the file on disk is a `FileState` whose parseable contents are the parsed
structure directly, and the write step is recorded as data (mode bits,
directory creation) rather than performed.
-/

namespace GkeMcp

/-- Go `map[string]interface{}` preferences field.  The program never reads
or writes individual preference entries, it only carries the map through,
so the values are modelled as opaque strings in an association list. -/
abbrev Preferences := List (String × String)

/-- `ExecConfig` from the source: the exec credential plugin descriptor. -/
structure ExecConfig where
  apiVersion : String
  command : String
  installHint : String
  provideClusterInfo : Bool
deriving DecidableEq, Repr

/-- `AuthInfo` from the source; `exec` is a nilable pointer in Go. -/
structure AuthInfo where
  exec : Option ExecConfig
deriving DecidableEq, Repr

/-- `NamedAuthInfo` from the source. -/
structure NamedAuthInfo where
  name : String
  user : AuthInfo
deriving DecidableEq, Repr

/-- `Cluster` from the source. -/
structure Cluster where
  certificateAuthorityData : String
  server : String
deriving DecidableEq, Repr

/-- `NamedCluster` from the source. -/
structure NamedCluster where
  name : String
  cluster : Cluster
deriving DecidableEq, Repr

/-- `Context` from the source. -/
structure Context where
  cluster : String
  user : String
deriving DecidableEq, Repr

/-- `NamedContext` from the source. -/
structure NamedContext where
  name : String
  context : Context
deriving DecidableEq, Repr

/-- `Kubeconfig` from the source (the in-memory document after the
loader's normalization, so the slice fields are plain lists). -/
structure Kubeconfig where
  apiVersion : String
  clusters : List NamedCluster
  contexts : List NamedContext
  currentContext : String
  kind : String
  preferences : Preferences
  users : List NamedAuthInfo
deriving DecidableEq, Repr

/-- The `Kubeconfig` Go struct as `yaml.Unmarshal` fills it: slice and map
fields may be nil (`none`), string fields default to `""`.  This is the
shape the loader's nil-normalization (source lines 308-326) consumes. -/
structure ParsedKubeconfig where
  apiVersion : String
  clusters : Option (List NamedCluster)
  contexts : Option (List NamedContext)
  currentContext : String
  kind : String
  preferences : Option Preferences
  users : Option (List NamedAuthInfo)
deriving DecidableEq, Repr

/-- Content of the file at the kubeconfig path: either bytes that
`yaml.Unmarshal` accepts (modelled as the parsed structure itself) or
bytes it rejects. -/
inductive FileContent where
  | doc (p : ParsedKubeconfig)
  | malformed
deriving DecidableEq, Repr

/-- State of the kubeconfig path on disk, as `os.ReadFile` sees it. -/
inductive FileState where
  | absent
  | unreadable
  | present (c : FileContent)
deriving DecidableEq, Repr

/-- What `GetCluster` returns, restricted to the two fields the handler
reads: `resp.GetMasterAuth().GetClusterCaCertificate()` and
`resp.GetEndpoint()`. -/
structure ResolverOutput where
  clusterCaCertificate : String
  endpoint : String
deriving DecidableEq, Repr

/-- Failure of the `GetCluster` call, opaque to the handler. -/
structure ResolveError where
  msg : String
deriving DecidableEq, Repr

/-- The handler's error returns, one constructor per `return nil, nil, err`
site that this model covers. -/
inductive KubeconfigError where
  | emptyName
  | resolveFailed (e : ResolveError)
  | missingCertificate (clusterName : String)
  | missingEndpoint (clusterName : String)
  | readFailed
  | parseFailed
deriving DecidableEq, Repr

/-- Successful outcome: the document handed to `yaml.Marshal` plus the
filesystem effects of the write phase.  `dirCreated` is `some mode` when
the `.kube` directory was absent and `os.MkdirAll` was called with that
mode; `fileMode` is the mode passed to `os.WriteFile`. -/
structure KubeconfigWrite where
  written : Kubeconfig
  dirCreated : Option Nat
  fileMode : Nat
deriving DecidableEq, Repr

/-- Mode passed to `os.MkdirAll` for the `.kube` directory (source line
407: `0755`). -/
def kubeDirMode : Nat := 0o755

/-- Mode passed to `os.WriteFile` for the kubeconfig file (source line
414: `0600`). -/
def kubeconfigFileMode : Nat := 0o600

/-- A POSIX mode grants nothing to group or others iff its low six bits
are zero. -/
def ownerOnlyMode (m : Nat) : Bool := m % 64 == 0

/-- Go `strings.HasPrefix` at character level (the only prefix the
program tests is ASCII, where bytes and characters coincide). -/
def goHasPre (s pre : String) : Bool :=
  pre.toList.isPrefixOf s.toList

/-- Source lines 272-275: ensure the endpoint starts with `https://`. -/
def normalizeEndpoint (endpoint : String) : String :=
  if goHasPre endpoint "https://" then endpoint else "https://" ++ endpoint

/-- Source line 278: `fmt.Sprintf("gke_%s_%s_%s", projectID, location, name)`. -/
def newClusterNameOf (projectID location name : String) : String :=
  "gke_" ++ projectID ++ "_" ++ location ++ "_" ++ name

/-- Source lines 330-336: the new `NamedCluster` entry. -/
def mkNewCluster (n clusterCaCertificate endpoint : String) : NamedCluster :=
  { name := n
    cluster :=
      { certificateAuthorityData := clusterCaCertificate
        server := endpoint } }

/-- Source lines 337-343: the new `NamedContext` entry. -/
def mkNewContext (n : String) : NamedContext :=
  { name := n, context := { cluster := n, user := n } }

/-- Source lines 344-354: the new `NamedAuthInfo` entry with the constant
exec-plugin descriptor. -/
def mkNewUser (n : String) : NamedAuthInfo :=
  { name := n
    user :=
      { exec := some
          { apiVersion := "client.authentication.k8s.io/v1beta1"
            command := "gke-gcloud-auth-plugin"
            installHint := "Install gke-gcloud-auth-plugin for use with kubectl by following https://cloud.google.com/kubernetes-engine/docs/how-to/cluster-access-for-kubectl#install_plugin"
            provideClusterInfo := true } } }

/-- The append-or-update loop the source repeats for clusters, contexts
and users (lines 356-393): scan for the first element whose name equals
`n`, replace it in place and stop; append `new` when no element matches. -/
def upsertNamed {α : Type} (getName : α → String) (n : String) (new : α) :
    List α → List α
  | [] => [new]
  | x :: rest =>
    if getName x = n then new :: rest
    else x :: upsertNamed getName n new rest

/-- Source lines 296-301: `os.IsNotExist` branch, the fresh document. -/
def freshKubeconfig : Kubeconfig :=
  { apiVersion := "v1"
    clusters := []
    contexts := []
    currentContext := ""
    kind := "Config"
    preferences := []
    users := [] }

/-- Source lines 308-326: nil slices and map become empty, absent
`apiVersion`/`kind` are back-filled. -/
def normalizeLoaded (p : ParsedKubeconfig) : Kubeconfig :=
  { apiVersion := if p.apiVersion = "" then "v1" else p.apiVersion
    clusters := p.clusters.getD []
    contexts := p.contexts.getD []
    currentContext := p.currentContext
    kind := if p.kind = "" then "Config" else p.kind
    preferences := p.preferences.getD []
    users := p.users.getD [] }

/-- Source lines 288-327: read the kubeconfig path.  Absence bootstraps a
fresh document; a read failure or an unparsable file is fatal. -/
def loadKubeconfig (fs : FileState) : Except KubeconfigError Kubeconfig :=
  match fs with
  | .absent => .ok freshKubeconfig
  | .unreadable => .error .readFailed
  | .present .malformed => .error .parseFailed
  | .present (.doc p) => .ok (normalizeLoaded p)

/-- Source lines 356-396: the three upserts followed by repointing
`current-context`. -/
def mergeKubeconfig (k : Kubeconfig) (n clusterCaCertificate endpoint : String) :
    Kubeconfig :=
  { k with
    clusters :=
      upsertNamed NamedCluster.name n (mkNewCluster n clusterCaCertificate endpoint)
        k.clusters
    contexts := upsertNamed NamedContext.name n (mkNewContext n) k.contexts
    users := upsertNamed NamedAuthInfo.name n (mkNewUser n) k.users
    currentContext := n }

/-- Arguments of the `get_kubeconfig` tool. -/
structure GetKubeconfigArgs where
  projectID : String
  location : String
  name : String
deriving DecidableEq, Repr

/-- The whole `getKubeconfig` handler (source lines 243-424) as a function
of its inputs: the config defaults, the tool arguments, the resolver
outcome, the state of the kubeconfig path and whether the `.kube`
directory already exists.  `yaml.Marshal`, `os.MkdirAll` and
`os.WriteFile` are modelled as succeeding; their failure branches only
propagate errors and perform no further writes. -/
def getKubeconfig (defaultProjectID defaultLocation : String)
    (args : GetKubeconfigArgs) (resolve : Except ResolveError ResolverOutput)
    (fs : FileState) (dirExists : Bool) :
    Except KubeconfigError KubeconfigWrite :=
  if args.name = "" then .error .emptyName
  else
    match resolve with
    | .error e => .error (.resolveFailed e)
    | .ok r =>
      if r.clusterCaCertificate = "" then .error (.missingCertificate args.name)
      else if r.endpoint = "" then .error (.missingEndpoint args.name)
      else
        match loadKubeconfig fs with
        | .error e => .error e
        | .ok existing =>
          .ok
            { written :=
                mergeKubeconfig existing
                  (newClusterNameOf
                    (if args.projectID = "" then defaultProjectID else args.projectID)
                    (if args.location = "" then defaultLocation else args.location)
                    args.name)
                  r.clusterCaCertificate (normalizeEndpoint r.endpoint)
              dirCreated := if dirExists then none else some kubeDirMode
              fileMode := kubeconfigFileMode }

/-- Serialization as `yaml.Marshal` with the struct's `omitempty` tags
sees a merged document: empty slices and an empty map are omitted and
read back as nil. -/
def serializeKubeconfig (k : Kubeconfig) : ParsedKubeconfig :=
  { apiVersion := k.apiVersion
    clusters := if k.clusters = [] then none else some k.clusters
    contexts := if k.contexts = [] then none else some k.contexts
    currentContext := k.currentContext
    kind := k.kind
    preferences := if k.preferences = [] then none else some k.preferences
    users := if k.users = [] then none else some k.users }

/-- State of the kubeconfig path after the handler runs: unchanged on any
error (every error site returns before `os.WriteFile`), overwritten with
the marshalled merged document on success. -/
def fileAfterGetKubeconfig (defaultProjectID defaultLocation : String)
    (args : GetKubeconfigArgs) (resolve : Except ResolveError ResolverOutput)
    (fs : FileState) (dirExists : Bool) : FileState :=
  match getKubeconfig defaultProjectID defaultLocation args resolve fs dirExists with
  | .ok w => .present (.doc (serializeKubeconfig w.written))
  | .error _ => fs

/-! ## Helper lemmas about the upsert loop -/

section UpsertLemmas

variable {α : Type} (getName : α → String) (n : String) (new : α)

theorem mem_upsertNamed (l : List α) : new ∈ upsertNamed getName n new l := by
  induction l with
  | nil => simp [upsertNamed]
  | cons x rest ih =>
    by_cases hx : getName x = n <;> simp [upsertNamed, hx, ih]

theorem upsertNamed_of_no_match (l : List α) (h : ∀ x ∈ l, getName x ≠ n) :
    upsertNamed getName n new l = l ++ [new] := by
  induction l with
  | nil => rfl
  | cons x rest ih =>
    have hx : getName x ≠ n := h x (by simp)
    simp only [upsertNamed, if_neg hx, List.cons_append, List.cons.injEq, true_and]
    exact ih fun y hy => h y (by simp [hy])

theorem upsertNamed_first_match (l₁ l₂ : List α) (a : α)
    (h₁ : ∀ x ∈ l₁, getName x ≠ n) (ha : getName a = n) :
    upsertNamed getName n new (l₁ ++ a :: l₂) = l₁ ++ new :: l₂ := by
  induction l₁ with
  | nil => simp [upsertNamed, ha]
  | cons x rest ih =>
    have hx : getName x ≠ n := h₁ x (by simp)
    simp only [List.cons_append, upsertNamed, if_neg hx, List.cons.injEq, true_and]
    exact ih fun y hy => h₁ y (by simp [hy])

theorem upsertNamed_idem (hname : getName new = n) (l : List α) :
    upsertNamed getName n new (upsertNamed getName n new l) =
      upsertNamed getName n new l := by
  induction l with
  | nil => simp [upsertNamed, hname]
  | cons x rest ih =>
    by_cases hx : getName x = n
    · simp [upsertNamed, hx, hname]
    · simp only [upsertNamed, if_neg hx, List.cons.injEq, true_and]
      exact ih

theorem length_upsertNamed (l : List α) :
    (upsertNamed getName n new l).length =
      if l.any (fun x => getName x == n) then l.length else l.length + 1 := by
  induction l with
  | nil => simp [upsertNamed]
  | cons x rest ih =>
    by_cases hx : getName x = n
    · simp [upsertNamed, hx]
    · by_cases hr : rest.any (fun x => getName x == n) <;>
        simp [upsertNamed, hx, ih, hr, List.any_cons]

theorem filter_upsertNamed (hname : getName new = n) (l : List α) :
    (upsertNamed getName n new l).filter (fun x => getName x != n) =
      l.filter (fun x => getName x != n) := by
  induction l with
  | nil => simp [upsertNamed, hname]
  | cons x rest ih =>
    by_cases hx : getName x = n
    · simp [upsertNamed, hx, hname]
    · simp [upsertNamed, hx, ih]

theorem countP_upsertNamed (hname : getName new = n) (l : List α)
    (h : l.countP (fun x => getName x == n) ≤ 1) :
    (upsertNamed getName n new l).countP (fun x => getName x == n) = 1 := by
  induction l with
  | nil => simp [upsertNamed, hname]
  | cons x rest ih =>
    by_cases hx : getName x = n
    · rw [List.countP_cons_of_pos _ _ (by simp [hx])] at h
      have hrest : rest.countP (fun x => getName x == n) = 0 := by omega
      simp only [upsertNamed, if_pos hx]
      rw [List.countP_cons_of_pos _ _ (by simp [hname]), hrest]
    · rw [List.countP_cons_of_neg _ _ (by simp [hx])] at h
      simp only [upsertNamed, if_neg hx]
      rw [List.countP_cons_of_neg _ _ (by simp [hx])]
      exact ih h

theorem any_upsertNamed (hname : getName new = n) (l : List α) :
    (upsertNamed getName n new l).any (fun x => getName x == n) = true := by
  rw [List.any_eq_true]
  exact ⟨new, mem_upsertNamed getName n new l, by simp [hname]⟩

end UpsertLemmas

/-- A second upsert under the same name absorbs the first: both replace
the same (first-matching, or appended) position, so only the second
value survives. -/
theorem upsertNamed_absorb {α : Type} (getName : α → String) (n : String)
    (new₁ new₂ : α) (hname : getName new₁ = n) (l : List α) :
    upsertNamed getName n new₂ (upsertNamed getName n new₁ l) =
      upsertNamed getName n new₂ l := by
  induction l with
  | nil => simp [upsertNamed, hname]
  | cons x rest ih =>
    by_cases hx : getName x = n
    · simp [upsertNamed, hx, hname]
    · simp only [upsertNamed, if_neg hx, List.cons.injEq, true_and]
      exact ih

/-- The names of the three freshly built entries are the derived name. -/
theorem name_mkNewCluster (n cert ep : String) : (mkNewCluster n cert ep).name = n := rfl

theorem name_mkNewContext (n : String) : (mkNewContext n).name = n := rfl

theorem name_mkNewUser (n : String) : (mkNewUser n).name = n := rfl

/-- A list is a prefix (as `List.isPrefixOf`) of itself followed by
anything. -/
theorem isPrefixOf_self_append {α : Type} [BEq α] [LawfulBEq α] (l t : List α) :
    l.isPrefixOf (l ++ t) = true := by
  induction l with
  | nil => simp [List.isPrefixOf]
  | cons a as ih => simp [List.isPrefixOf, ih]

/-- Success of the whole handler, characterized: the resolver succeeded
with non-empty certificate and endpoint, the name argument was non-empty,
the load succeeded, and the outcome is the merge of the loaded document
with the write-phase effects. -/
theorem getKubeconfig_ok_elim (defaultProjectID defaultLocation : String)
    (args : GetKubeconfigArgs) (resolve : Except ResolveError ResolverOutput)
    (fs : FileState) (dirExists : Bool) (w : KubeconfigWrite)
    (h : getKubeconfig defaultProjectID defaultLocation args resolve fs dirExists =
      .ok w) :
    ∃ r existing, resolve = .ok r ∧ args.name ≠ "" ∧
      r.clusterCaCertificate ≠ "" ∧ r.endpoint ≠ "" ∧
      loadKubeconfig fs = .ok existing ∧
      w = { written :=
              mergeKubeconfig existing
                (newClusterNameOf
                  (if args.projectID = "" then defaultProjectID else args.projectID)
                  (if args.location = "" then defaultLocation else args.location)
                  args.name)
                r.clusterCaCertificate (normalizeEndpoint r.endpoint)
            dirCreated := if dirExists then none else some kubeDirMode
            fileMode := kubeconfigFileMode } := by
  unfold getKubeconfig at h
  split at h
  · exact Except.noConfusion h
  rename_i hname
  split at h
  · exact Except.noConfusion h
  rename_i r
  split at h
  · exact Except.noConfusion h
  rename_i hcert
  split at h
  · exact Except.noConfusion h
  rename_i hep
  split at h
  · exact Except.noConfusion h
  rename_i existing hload
  exact ⟨r, existing, rfl, hname, hcert, hep, hload, (Except.ok.inj h).symm⟩

/-- Equality of handler outcomes is decidable (used to evaluate the
model at concrete inputs). -/
instance {ε α : Type} [DecidableEq ε] [DecidableEq α] :
    DecidableEq (Except ε α) := fun x y =>
  match x, y with
  | .ok a, .ok b =>
    if h : a = b then .isTrue (by rw [h]) else .isFalse (by simp [h])
  | .error e, .error f =>
    if h : e = f then .isTrue (by rw [h]) else .isFalse (by simp [h])
  | .ok _, .error _ => .isFalse (by simp)
  | .error _, .ok _ => .isFalse (by simp)

/-- Appending anything to a string keeps the string as a (character)
prefix of the result. -/
theorem goHasPre_append_self (p e : String) : goHasPre (p ++ e) p = true := by
  simp only [goHasPre, String.toList, String.data_append]
  exact isPrefixOf_self_append _ _

/-! ## Claim theorems -/

/-- C2: the merge is idempotent — for every starting credential document
and fixed derived name, certificate and (normalized) endpoint, applying
the merge twice yields a document identical field-for-field to applying
it once. -/
theorem mergeKubeconfig_idem (k : Kubeconfig) (n cert ep : String) :
    mergeKubeconfig (mergeKubeconfig k n cert ep) n cert ep =
      mergeKubeconfig k n cert ep := by
  have h1 := upsertNamed_idem NamedCluster.name n (mkNewCluster n cert ep) rfl k.clusters
  have h2 := upsertNamed_idem NamedContext.name n (mkNewContext n) rfl k.contexts
  have h3 := upsertNamed_idem NamedAuthInfo.name n (mkNewUser n) rfl k.users
  simp [mergeKubeconfig, h1, h2, h3]

/-- C3: merging one cluster identity adds one entry of each kind when the
derived name is fresh and keeps the counts when it already exists; the
subsequence of entries whose names differ from the derived name (values
and relative order) and the preferences mapping are unchanged. -/
theorem mergeKubeconfig_frame (k : Kubeconfig) (n cert ep : String) :
    ((mergeKubeconfig k n cert ep).clusters.length =
      if k.clusters.any (fun c => c.name == n) then k.clusters.length
      else k.clusters.length + 1) ∧
    ((mergeKubeconfig k n cert ep).contexts.length =
      if k.contexts.any (fun c => c.name == n) then k.contexts.length
      else k.contexts.length + 1) ∧
    ((mergeKubeconfig k n cert ep).users.length =
      if k.users.any (fun u => u.name == n) then k.users.length
      else k.users.length + 1) ∧
    (mergeKubeconfig k n cert ep).clusters.filter (fun c => c.name != n) =
      k.clusters.filter (fun c => c.name != n) ∧
    (mergeKubeconfig k n cert ep).contexts.filter (fun c => c.name != n) =
      k.contexts.filter (fun c => c.name != n) ∧
    (mergeKubeconfig k n cert ep).users.filter (fun u => u.name != n) =
      k.users.filter (fun u => u.name != n) ∧
    (mergeKubeconfig k n cert ep).preferences = k.preferences := by
  refine ⟨?_, ?_, ?_, ?_, ?_, ?_, rfl⟩ <;> simp only [mergeKubeconfig]
  · exact length_upsertNamed _ _ _ _
  · exact length_upsertNamed _ _ _ _
  · exact length_upsertNamed _ _ _ _
  · exact filter_upsertNamed NamedCluster.name n (mkNewCluster n cert ep) rfl k.clusters
  · exact filter_upsertNamed NamedContext.name n (mkNewContext n) rfl k.contexts
  · exact filter_upsertNamed NamedAuthInfo.name n (mkNewUser n) rfl k.users

/-- C4: after every successful run, `currentContext` equals the derived
name `gke_<projectID>_<location>_<clusterName>` (with the config defaults
applied to empty arguments) and that name belongs to a context entry
present in the contexts sequence. -/
theorem getKubeconfig_currentContext (defaultProjectID defaultLocation : String)
    (args : GetKubeconfigArgs) (resolve : Except ResolveError ResolverOutput)
    (fs : FileState) (dirExists : Bool) (w : KubeconfigWrite)
    (h : getKubeconfig defaultProjectID defaultLocation args resolve fs dirExists =
      .ok w) :
    w.written.currentContext =
      newClusterNameOf
        (if args.projectID = "" then defaultProjectID else args.projectID)
        (if args.location = "" then defaultLocation else args.location)
        args.name ∧
    ∃ c ∈ w.written.contexts, c.name = w.written.currentContext := by
  obtain ⟨r, existing, -, -, -, -, -, hw⟩ :=
    getKubeconfig_ok_elim _ _ _ _ _ _ _ h
  subst hw
  exact ⟨rfl, ⟨mkNewContext _, mem_upsertNamed _ _ _ _, rfl⟩⟩

set_option maxRecDepth 4000 in
/-- C4 witness: a concrete successful run for project `p1`, location
`us-central1`, cluster `demo`. -/
theorem getKubeconfig_currentContext_witness :
    (KubeconfigWrite.mk
        (mergeKubeconfig freshKubeconfig "gke_p1_us-central1_demo" "BASE64CERT"
          "https://10.0.0.1")
        none kubeconfigFileMode).written.currentContext =
      newClusterNameOf (if "p1" = "" then "dp" else "p1")
        (if "us-central1" = "" then "dl" else "us-central1") "demo" ∧
    ∃ c ∈ (KubeconfigWrite.mk
        (mergeKubeconfig freshKubeconfig "gke_p1_us-central1_demo" "BASE64CERT"
          "https://10.0.0.1")
        none kubeconfigFileMode).written.contexts,
      c.name = (KubeconfigWrite.mk
        (mergeKubeconfig freshKubeconfig "gke_p1_us-central1_demo" "BASE64CERT"
          "https://10.0.0.1")
        none kubeconfigFileMode).written.currentContext :=
  getKubeconfig_currentContext "dp" "dl" ⟨"p1", "us-central1", "demo"⟩
    (.ok ⟨"BASE64CERT", "10.0.0.1"⟩) .absent true _ (by decide)

/-- C6: an endpoint already starting with `https://` is stored unchanged,
an endpoint without that scheme is stored prefixed with `https://`, and
the stored server URL always starts with `https://`; in particular
`10.0.0.1:443` becomes `https://10.0.0.1:443` while
`https://10.0.0.1:443` is unchanged. -/
theorem normalizeEndpoint_spec (e : String) :
    goHasPre (normalizeEndpoint e) "https://" = true ∧
    (goHasPre e "https://" = true → normalizeEndpoint e = e) ∧
    (goHasPre e "https://" = false → normalizeEndpoint e = "https://" ++ e) ∧
    normalizeEndpoint "10.0.0.1:443" = "https://10.0.0.1:443" ∧
    normalizeEndpoint "https://10.0.0.1:443" = "https://10.0.0.1:443" := by
  refine ⟨?_, ?_, ?_, by decide, by decide⟩
  · by_cases hp : goHasPre e "https://" = true
    · simp [normalizeEndpoint, hp]
    · simp only [normalizeEndpoint, hp, if_false]
      exact goHasPre_append_self _ _
  · intro hp
    simp [normalizeEndpoint, hp]
  · intro hp
    simp [normalizeEndpoint, hp]

/-- C6 witness: the two concrete endpoints of the spec, via the general
theorem. -/
theorem normalizeEndpoint_spec_witness :
    normalizeEndpoint "https://10.0.0.1:443" = "https://10.0.0.1:443" ∧
    normalizeEndpoint "10.0.0.1:443" = "https://10.0.0.1:443" :=
  ⟨(normalizeEndpoint_spec "https://10.0.0.1:443").2.1 (by decide),
   (normalizeEndpoint_spec "10.0.0.1:443").2.2.1 (by decide)⟩

/-- C5: when no file exists at the kubeconfig path, the run succeeds and
bootstraps from the empty document: the result has exactly the one new
cluster, context and user entry, `apiVersion = "v1"`, `kind = "Config"`
and an empty preferences map. -/
theorem getKubeconfig_bootstrap (defaultProjectID defaultLocation : String)
    (args : GetKubeconfigArgs) (r : ResolverOutput) (dirExists : Bool)
    (hn : args.name ≠ "") (hc : r.clusterCaCertificate ≠ "")
    (he : r.endpoint ≠ "") :
    ∃ w, getKubeconfig defaultProjectID defaultLocation args (.ok r) .absent
        dirExists = .ok w ∧
      w.written.clusters = [mkNewCluster
        (newClusterNameOf
          (if args.projectID = "" then defaultProjectID else args.projectID)
          (if args.location = "" then defaultLocation else args.location)
          args.name)
        r.clusterCaCertificate (normalizeEndpoint r.endpoint)] ∧
      w.written.contexts = [mkNewContext
        (newClusterNameOf
          (if args.projectID = "" then defaultProjectID else args.projectID)
          (if args.location = "" then defaultLocation else args.location)
          args.name)] ∧
      w.written.users = [mkNewUser
        (newClusterNameOf
          (if args.projectID = "" then defaultProjectID else args.projectID)
          (if args.location = "" then defaultLocation else args.location)
          args.name)] ∧
      w.written.apiVersion = "v1" ∧
      w.written.kind = "Config" ∧
      w.written.preferences = [] := by
  have hres : getKubeconfig defaultProjectID defaultLocation args (.ok r)
      .absent dirExists =
      .ok { written := mergeKubeconfig freshKubeconfig
              (newClusterNameOf
                (if args.projectID = "" then defaultProjectID else args.projectID)
                (if args.location = "" then defaultLocation else args.location)
                args.name)
              r.clusterCaCertificate (normalizeEndpoint r.endpoint)
            dirCreated := if dirExists then none else some kubeDirMode
            fileMode := kubeconfigFileMode } := by
    simp [getKubeconfig, hn, hc, he, loadKubeconfig]
  exact ⟨_, hres, rfl, rfl, rfl, rfl, rfl, rfl⟩

/-- C5 witness: the spec's scenario — project `p1`, location
`us-central1`, cluster `demo`, resolver endpoint `10.0.0.1`. -/
theorem getKubeconfig_bootstrap_witness :
    ∃ w, getKubeconfig "dp" "dl" ⟨"p1", "us-central1", "demo"⟩
        (.ok ⟨"BASE64CERT", "10.0.0.1"⟩) .absent true = .ok w ∧
      w.written.clusters = [mkNewCluster
        (newClusterNameOf (if "p1" = "" then "dp" else "p1")
          (if "us-central1" = "" then "dl" else "us-central1") "demo")
        "BASE64CERT" (normalizeEndpoint "10.0.0.1")] ∧
      w.written.contexts = [mkNewContext
        (newClusterNameOf (if "p1" = "" then "dp" else "p1")
          (if "us-central1" = "" then "dl" else "us-central1") "demo")] ∧
      w.written.users = [mkNewUser
        (newClusterNameOf (if "p1" = "" then "dp" else "p1")
          (if "us-central1" = "" then "dl" else "us-central1") "demo")] ∧
      w.written.apiVersion = "v1" ∧
      w.written.kind = "Config" ∧
      w.written.preferences = [] :=
  getKubeconfig_bootstrap "dp" "dl" ⟨"p1", "us-central1", "demo"⟩
    ⟨"BASE64CERT", "10.0.0.1"⟩ true (by decide) (by decide) (by decide)

/-- C7: an empty CA certificate (respectively an empty endpoint, once the
certificate is present) aborts the run with the dedicated error, the two
errors are distinct, and the file on disk is left untouched. -/
theorem getKubeconfig_missing_inputs (defaultProjectID defaultLocation : String)
    (args : GetKubeconfigArgs) (r : ResolverOutput) (fs : FileState)
    (dirExists : Bool) (hn : args.name ≠ "") :
    (r.clusterCaCertificate = "" →
      getKubeconfig defaultProjectID defaultLocation args (.ok r) fs dirExists =
        .error (.missingCertificate args.name) ∧
      fileAfterGetKubeconfig defaultProjectID defaultLocation args (.ok r) fs
        dirExists = fs) ∧
    (r.clusterCaCertificate ≠ "" → r.endpoint = "" →
      getKubeconfig defaultProjectID defaultLocation args (.ok r) fs dirExists =
        .error (.missingEndpoint args.name) ∧
      fileAfterGetKubeconfig defaultProjectID defaultLocation args (.ok r) fs
        dirExists = fs) ∧
    (∀ s t : String,
      KubeconfigError.missingCertificate s ≠ KubeconfigError.missingEndpoint t) := by
  refine ⟨fun hc => ?_, fun hc he => ?_,
    fun s t h => KubeconfigError.noConfusion h⟩
  · have hres : getKubeconfig defaultProjectID defaultLocation args (.ok r) fs
        dirExists = .error (.missingCertificate args.name) := by
      simp [getKubeconfig, hn, hc]
    exact ⟨hres, by simp [fileAfterGetKubeconfig, hres]⟩
  · have hres : getKubeconfig defaultProjectID defaultLocation args (.ok r) fs
        dirExists = .error (.missingEndpoint args.name) := by
      simp [getKubeconfig, hn, hc, he]
    exact ⟨hres, by simp [fileAfterGetKubeconfig, hres]⟩

/-- C7 witness: concrete runs in which the resolver returns an empty
certificate (respectively an empty endpoint); both fail with their
dedicated error and leave the absent file absent. -/
theorem getKubeconfig_missing_inputs_witness :
    (getKubeconfig "dp" "dl" ⟨"p", "l", "c"⟩ (.ok ⟨"", "10.0.0.1"⟩) .absent true =
        .error (.missingCertificate "c") ∧
      fileAfterGetKubeconfig "dp" "dl" ⟨"p", "l", "c"⟩ (.ok ⟨"", "10.0.0.1"⟩)
        .absent true = .absent) ∧
    (getKubeconfig "dp" "dl" ⟨"p", "l", "c"⟩ (.ok ⟨"CERT", ""⟩) .absent true =
        .error (.missingEndpoint "c") ∧
      fileAfterGetKubeconfig "dp" "dl" ⟨"p", "l", "c"⟩ (.ok ⟨"CERT", ""⟩)
        .absent true = .absent) :=
  ⟨(getKubeconfig_missing_inputs "dp" "dl" ⟨"p", "l", "c"⟩ ⟨"", "10.0.0.1"⟩
      .absent true (by decide)).1 rfl,
   (getKubeconfig_missing_inputs "dp" "dl" ⟨"p", "l", "c"⟩ ⟨"CERT", ""⟩
      .absent true (by decide)).2.1 (by decide) rfl⟩

/-- C8: when the file at the kubeconfig path exists but does not parse,
the run never overwrites it (whatever else happens), and — all earlier
stages passing — it fails with the parse error. -/
theorem getKubeconfig_parse_failure (defaultProjectID defaultLocation : String)
    (args : GetKubeconfigArgs) (resolve : Except ResolveError ResolverOutput)
    (dirExists : Bool) :
    fileAfterGetKubeconfig defaultProjectID defaultLocation args resolve
      (.present .malformed) dirExists = .present .malformed ∧
    (∀ r : ResolverOutput, resolve = .ok r → args.name ≠ "" →
      r.clusterCaCertificate ≠ "" → r.endpoint ≠ "" →
      getKubeconfig defaultProjectID defaultLocation args resolve
        (.present .malformed) dirExists = .error .parseFailed) := by
  constructor
  · cases hres : getKubeconfig defaultProjectID defaultLocation args resolve
        (.present .malformed) dirExists with
    | error e => simp [fileAfterGetKubeconfig, hres]
    | ok w =>
      obtain ⟨r, existing, -, -, -, -, hload, -⟩ :=
        getKubeconfig_ok_elim _ _ _ _ _ _ _ hres
      simp [loadKubeconfig] at hload
  · intro r hres hn hc he
    subst hres
    simp [getKubeconfig, hn, hc, he, loadKubeconfig]

/-- C8 witness: a concrete run against an unparsable file fails with the
parse error and leaves the file as it was. -/
theorem getKubeconfig_parse_failure_witness :
    fileAfterGetKubeconfig "dp" "dl" ⟨"p", "l", "c"⟩ (.ok ⟨"CERT", "1.2.3.4"⟩)
      (.present .malformed) true = .present .malformed ∧
    getKubeconfig "dp" "dl" ⟨"p", "l", "c"⟩ (.ok ⟨"CERT", "1.2.3.4"⟩)
      (.present .malformed) true = .error .parseFailed :=
  ⟨(getKubeconfig_parse_failure "dp" "dl" ⟨"p", "l", "c"⟩
      (.ok ⟨"CERT", "1.2.3.4"⟩) true).1,
   (getKubeconfig_parse_failure "dp" "dl" ⟨"p", "l", "c"⟩
      (.ok ⟨"CERT", "1.2.3.4"⟩) true).2 ⟨"CERT", "1.2.3.4"⟩ rfl (by decide)
      (by decide) (by decide)⟩

set_option maxRecDepth 4000 in
/-- C9 counterexample: a successful run that had to create the `.kube`
directory creates it with mode `0o755`, which grants read/execute to
group and others — not owner-only as the claim states.  The file itself
is written with `0o600`. -/
theorem getKubeconfig_dirMode_counterexample :
    getKubeconfig "dp" "dl" ⟨"p", "l", "c"⟩ (.ok ⟨"CERT", "10.0.0.1"⟩)
        .absent false =
      .ok { written := mergeKubeconfig freshKubeconfig "gke_p_l_c" "CERT"
              "https://10.0.0.1"
            dirCreated := some kubeDirMode
            fileMode := kubeconfigFileMode } ∧
    kubeDirMode = 0o755 ∧ ownerOnlyMode kubeDirMode = false :=
  ⟨by decide, by decide, by decide⟩

/-- C9 amended: on every successful run the file is written with mode
`0o600` (owner read/write only) and, when the `.kube` directory was
missing, it is created with mode `0o755` (owner rwx plus group/other
read+execute — not owner-only). -/
theorem getKubeconfig_write_modes (defaultProjectID defaultLocation : String)
    (args : GetKubeconfigArgs) (resolve : Except ResolveError ResolverOutput)
    (fs : FileState) (dirExists : Bool) (w : KubeconfigWrite)
    (h : getKubeconfig defaultProjectID defaultLocation args resolve fs dirExists =
      .ok w) :
    w.fileMode = kubeconfigFileMode ∧ kubeconfigFileMode = 0o600 ∧
    ownerOnlyMode kubeconfigFileMode = true ∧
    w.dirCreated = (if dirExists then none else some kubeDirMode) ∧
    kubeDirMode = 0o755 ∧ ownerOnlyMode kubeDirMode = false := by
  obtain ⟨r, existing, -, -, -, -, -, hw⟩ :=
    getKubeconfig_ok_elim _ _ _ _ _ _ _ h
  subst hw
  exact ⟨rfl, rfl, by decide, rfl, rfl, by decide⟩

set_option maxRecDepth 4000 in
/-- C9 amended witness: a concrete successful run with the directory
missing. -/
theorem getKubeconfig_write_modes_witness :
    (KubeconfigWrite.mk
        (mergeKubeconfig freshKubeconfig "gke_p2_l2_c2" "CERT2" "https://1.2.3.4")
        (some kubeDirMode) kubeconfigFileMode).fileMode = kubeconfigFileMode ∧
    kubeconfigFileMode = 0o600 ∧
    ownerOnlyMode kubeconfigFileMode = true ∧
    (KubeconfigWrite.mk
        (mergeKubeconfig freshKubeconfig "gke_p2_l2_c2" "CERT2" "https://1.2.3.4")
        (some kubeDirMode) kubeconfigFileMode).dirCreated =
      (if (false : Bool) then none else some kubeDirMode) ∧
    kubeDirMode = 0o755 ∧ ownerOnlyMode kubeDirMode = false :=
  getKubeconfig_write_modes "dp" "dl" ⟨"p2", "l2", "c2"⟩
    (.ok ⟨"CERT2", "1.2.3.4"⟩) .absent false _ (by decide)

set_option maxRecDepth 4000 in
/-- C1 counterexample: the claim quantifies over every loaded credential
document, but a document that already holds two cluster entries under the
derived name still holds two entries under that name after merging the
identity twice — not exactly one. -/
theorem mergeKubeconfig_twice_duplicate_counterexample :
    ((mergeKubeconfig
        (mergeKubeconfig
          { apiVersion := "v1"
            clusters := [⟨"gke_p_l_c", ⟨"cx", "sx"⟩⟩, ⟨"gke_p_l_c", ⟨"cy", "sy"⟩⟩]
            contexts := []
            currentContext := ""
            kind := "Config"
            preferences := []
            users := [] }
          "gke_p_l_c" "certA" "https://epA")
        "gke_p_l_c" "certB" "https://epB").clusters.countP
      (fun c => c.name == "gke_p_l_c")) = 2 := by decide

/-- C1 amended: provided the loaded document holds at most one entry of
each kind under the derived name (the documented uniqueness invariant),
merging the identity twice — the second time with different values —
yields the very document a single merge with the second call's values
yields; it holds exactly one entry of each kind under that name, bearing
the second call's values, and a pre-existing matching entry is replaced
at its existing index: the entries before it and after it are left where
they were, with no duplicate appended. -/
theorem mergeKubeconfig_upsert_correct (k : Kubeconfig)
    (n cert₁ ep₁ cert₂ ep₂ : String)
    (hcl : k.clusters.countP (fun c => c.name == n) ≤ 1)
    (hcx : k.contexts.countP (fun c => c.name == n) ≤ 1)
    (hus : k.users.countP (fun u => u.name == n) ≤ 1) :
    mergeKubeconfig (mergeKubeconfig k n cert₁ ep₁) n cert₂ ep₂ =
      mergeKubeconfig k n cert₂ ep₂ ∧
    ((mergeKubeconfig (mergeKubeconfig k n cert₁ ep₁) n cert₂ ep₂).clusters.countP
        (fun c => c.name == n) = 1) ∧
    ((mergeKubeconfig (mergeKubeconfig k n cert₁ ep₁) n cert₂ ep₂).contexts.countP
        (fun c => c.name == n) = 1) ∧
    ((mergeKubeconfig (mergeKubeconfig k n cert₁ ep₁) n cert₂ ep₂).users.countP
        (fun u => u.name == n) = 1) ∧
    mkNewCluster n cert₂ ep₂ ∈
      (mergeKubeconfig (mergeKubeconfig k n cert₁ ep₁) n cert₂ ep₂).clusters ∧
    mkNewContext n ∈
      (mergeKubeconfig (mergeKubeconfig k n cert₁ ep₁) n cert₂ ep₂).contexts ∧
    mkNewUser n ∈
      (mergeKubeconfig (mergeKubeconfig k n cert₁ ep₁) n cert₂ ep₂).users ∧
    (∀ (l₁ : List NamedCluster) (a : NamedCluster) (l₂ : List NamedCluster),
      k.clusters = l₁ ++ a :: l₂ → (∀ x ∈ l₁, x.name ≠ n) → a.name = n →
      (mergeKubeconfig (mergeKubeconfig k n cert₁ ep₁) n cert₂ ep₂).clusters =
        l₁ ++ mkNewCluster n cert₂ ep₂ :: l₂) ∧
    (∀ (m₁ : List NamedContext) (b : NamedContext) (m₂ : List NamedContext),
      k.contexts = m₁ ++ b :: m₂ → (∀ x ∈ m₁, x.name ≠ n) → b.name = n →
      (mergeKubeconfig (mergeKubeconfig k n cert₁ ep₁) n cert₂ ep₂).contexts =
        m₁ ++ mkNewContext n :: m₂) ∧
    (∀ (u₁ : List NamedAuthInfo) (c : NamedAuthInfo) (u₂ : List NamedAuthInfo),
      k.users = u₁ ++ c :: u₂ → (∀ x ∈ u₁, x.name ≠ n) → c.name = n →
      (mergeKubeconfig (mergeKubeconfig k n cert₁ ep₁) n cert₂ ep₂).users =
        u₁ ++ mkNewUser n :: u₂) := by
  have habs : mergeKubeconfig (mergeKubeconfig k n cert₁ ep₁) n cert₂ ep₂ =
      mergeKubeconfig k n cert₂ ep₂ := by
    have h1 := upsertNamed_absorb NamedCluster.name n (mkNewCluster n cert₁ ep₁)
      (mkNewCluster n cert₂ ep₂) rfl k.clusters
    have h2 := upsertNamed_absorb NamedContext.name n (mkNewContext n)
      (mkNewContext n) rfl k.contexts
    have h3 := upsertNamed_absorb NamedAuthInfo.name n (mkNewUser n)
      (mkNewUser n) rfl k.users
    simp [mergeKubeconfig, h1, h2, h3]
  refine ⟨habs, ?_, ?_, ?_, ?_, ?_, ?_, ?_, ?_, ?_⟩ <;> rw [habs] <;>
    simp only [mergeKubeconfig]
  · exact countP_upsertNamed NamedCluster.name n (mkNewCluster n cert₂ ep₂)
      rfl _ hcl
  · exact countP_upsertNamed NamedContext.name n (mkNewContext n) rfl _ hcx
  · exact countP_upsertNamed NamedAuthInfo.name n (mkNewUser n) rfl _ hus
  · exact mem_upsertNamed _ _ _ _
  · exact mem_upsertNamed _ _ _ _
  · exact mem_upsertNamed _ _ _ _
  · intro l₁ a l₂ hdec h₁ ha
    rw [hdec]
    exact upsertNamed_first_match NamedCluster.name n (mkNewCluster n cert₂ ep₂)
      l₁ l₂ a h₁ ha
  · intro m₁ b m₂ hdec h₁ hb
    rw [hdec]
    exact upsertNamed_first_match NamedContext.name n (mkNewContext n)
      m₁ m₂ b h₁ hb
  · intro u₁ c u₂ hdec h₁ hc
    rw [hdec]
    exact upsertNamed_first_match NamedAuthInfo.name n (mkNewUser n)
      u₁ u₂ c h₁ hc

/-- A starting document with one entry under the derived name
`gke_p1_l1_c1` and unrelated entries named `other`; used to evaluate the
amended upsert-correctness claim concretely. -/
def c1Doc : Kubeconfig :=
  { apiVersion := "v1"
    clusters := [⟨"other", ⟨"certO", "https://other"⟩⟩,
                 ⟨"gke_p1_l1_c1", ⟨"certOld", "https://old"⟩⟩]
    contexts := [⟨"other", ⟨"other", "other"⟩⟩]
    currentContext := "other"
    kind := "Config"
    preferences := [("colors", "true")]
    users := [⟨"other", ⟨none⟩⟩] }

set_option maxRecDepth 4000 in
/-- C1 amended witness: the amended claim at a concrete document with one
matching cluster entry (at index 1, after an unrelated entry) — the
double merge equals the single merge with the second values, the name is
held by exactly one cluster entry bearing them, and the matching entry is
replaced at its index: the unrelated entry stays before it and nothing
follows. -/
theorem mergeKubeconfig_upsert_correct_witness :
    mergeKubeconfig (mergeKubeconfig c1Doc "gke_p1_l1_c1" "A" "https://a")
        "gke_p1_l1_c1" "B" "https://b" =
      mergeKubeconfig c1Doc "gke_p1_l1_c1" "B" "https://b" ∧
    ((mergeKubeconfig (mergeKubeconfig c1Doc "gke_p1_l1_c1" "A" "https://a")
        "gke_p1_l1_c1" "B" "https://b").clusters.countP
      (fun c => c.name == "gke_p1_l1_c1") = 1) ∧
    mkNewCluster "gke_p1_l1_c1" "B" "https://b" ∈
      (mergeKubeconfig (mergeKubeconfig c1Doc "gke_p1_l1_c1" "A" "https://a")
        "gke_p1_l1_c1" "B" "https://b").clusters ∧
    (mergeKubeconfig (mergeKubeconfig c1Doc "gke_p1_l1_c1" "A" "https://a")
        "gke_p1_l1_c1" "B" "https://b").clusters =
      [⟨"other", ⟨"certO", "https://other"⟩⟩] ++
        mkNewCluster "gke_p1_l1_c1" "B" "https://b" :: [] := by
  have T := mergeKubeconfig_upsert_correct c1Doc "gke_p1_l1_c1" "A" "https://a"
    "B" "https://b" (by decide) (by decide) (by decide)
  exact ⟨T.1, T.2.1, T.2.2.2.2.1,
    T.2.2.2.2.2.2.2.1 [⟨"other", ⟨"certO", "https://other"⟩⟩]
      ⟨"gke_p1_l1_c1", ⟨"certOld", "https://old"⟩⟩ [] rfl (by simp) rfl⟩

/-- C10: for each kind independently, whenever the loaded document's
sequence of that kind decomposes as earlier non-matching entries, a first
matching entry and an arbitrary tail, the merge replaces exactly that
first matching entry and leaves the tail — later duplicates included —
in place; nothing restores uniqueness in any of the three sequences. -/
theorem mergeKubeconfig_replaces_first_only (k : Kubeconfig) (n cert ep : String) :
    (∀ (l₁ : List NamedCluster) (a : NamedCluster) (l₂ : List NamedCluster),
      k.clusters = l₁ ++ a :: l₂ → (∀ x ∈ l₁, x.name ≠ n) → a.name = n →
      (mergeKubeconfig k n cert ep).clusters =
        l₁ ++ mkNewCluster n cert ep :: l₂) ∧
    (∀ (m₁ : List NamedContext) (b : NamedContext) (m₂ : List NamedContext),
      k.contexts = m₁ ++ b :: m₂ → (∀ x ∈ m₁, x.name ≠ n) → b.name = n →
      (mergeKubeconfig k n cert ep).contexts = m₁ ++ mkNewContext n :: m₂) ∧
    (∀ (u₁ : List NamedAuthInfo) (c : NamedAuthInfo) (u₂ : List NamedAuthInfo),
      k.users = u₁ ++ c :: u₂ → (∀ x ∈ u₁, x.name ≠ n) → c.name = n →
      (mergeKubeconfig k n cert ep).users = u₁ ++ mkNewUser n :: u₂) := by
  refine ⟨?_, ?_, ?_⟩ <;> simp only [mergeKubeconfig]
  · intro l₁ a l₂ hcl hcl₁ hcla
    rw [hcl]
    exact upsertNamed_first_match NamedCluster.name n (mkNewCluster n cert ep)
      l₁ l₂ a hcl₁ hcla
  · intro m₁ b m₂ hcx hcx₁ hcxb
    rw [hcx]
    exact upsertNamed_first_match NamedContext.name n (mkNewContext n)
      m₁ m₂ b hcx₁ hcxb
  · intro u₁ c u₂ hus hus₁ husc
    rw [hus]
    exact upsertNamed_first_match NamedAuthInfo.name n (mkNewUser n)
      u₁ u₂ c hus₁ husc

/-- A document holding two entries under the derived name `gke_p_l_c` in
each of the three sequences; used to evaluate the duplicate-preservation
claim concretely. -/
def dupDoc : Kubeconfig :=
  { apiVersion := "v1"
    clusters := [⟨"gke_p_l_c", ⟨"c1", "s1"⟩⟩, ⟨"gke_p_l_c", ⟨"c2", "s2"⟩⟩]
    contexts := [⟨"gke_p_l_c", ⟨"gke_p_l_c", "gke_p_l_c"⟩⟩,
                 ⟨"gke_p_l_c", ⟨"x", "y"⟩⟩]
    currentContext := ""
    kind := "Config"
    preferences := []
    users := [⟨"gke_p_l_c", ⟨none⟩⟩,
              ⟨"gke_p_l_c", ⟨some ⟨"v1", "cmd", "hint", false⟩⟩⟩] }

/-- A document holding two entries under `gke_p_l_c` among its clusters
only, with an unrelated context and no users; used to show the
first-match replacement applies to one kind in isolation. -/
def clusterDupDoc : Kubeconfig :=
  { apiVersion := "v1"
    clusters := [⟨"gke_p_l_c", ⟨"c1", "s1"⟩⟩, ⟨"gke_p_l_c", ⟨"c2", "s2"⟩⟩]
    contexts := [⟨"other", ⟨"other", "other"⟩⟩]
    currentContext := "other"
    kind := "Config"
    preferences := []
    users := [] }

/-- C10 witness: merging into a document whose sequences each hold two
entries under the derived name replaces the first of each and keeps the
second; merging into a document with duplicates among its clusters only
replaces the first cluster entry alone. -/
theorem mergeKubeconfig_replaces_first_only_witness :
    (mergeKubeconfig dupDoc "gke_p_l_c" "CERT" "https://ep").clusters =
      [] ++ mkNewCluster "gke_p_l_c" "CERT" "https://ep" ::
        [⟨"gke_p_l_c", ⟨"c2", "s2"⟩⟩] ∧
    (mergeKubeconfig dupDoc "gke_p_l_c" "CERT" "https://ep").contexts =
      [] ++ mkNewContext "gke_p_l_c" :: [⟨"gke_p_l_c", ⟨"x", "y"⟩⟩] ∧
    (mergeKubeconfig dupDoc "gke_p_l_c" "CERT" "https://ep").users =
      [] ++ mkNewUser "gke_p_l_c" ::
        [⟨"gke_p_l_c", ⟨some ⟨"v1", "cmd", "hint", false⟩⟩⟩] ∧
    (mergeKubeconfig clusterDupDoc "gke_p_l_c" "CERT" "https://ep").clusters =
      [] ++ mkNewCluster "gke_p_l_c" "CERT" "https://ep" ::
        [⟨"gke_p_l_c", ⟨"c2", "s2"⟩⟩] := by
  have T := mergeKubeconfig_replaces_first_only dupDoc "gke_p_l_c" "CERT"
    "https://ep"
  have T2 := mergeKubeconfig_replaces_first_only clusterDupDoc "gke_p_l_c" "CERT"
    "https://ep"
  exact ⟨T.1 [] ⟨"gke_p_l_c", ⟨"c1", "s1"⟩⟩ [⟨"gke_p_l_c", ⟨"c2", "s2"⟩⟩]
      rfl (by simp) rfl,
    T.2.1 [] ⟨"gke_p_l_c", ⟨"gke_p_l_c", "gke_p_l_c"⟩⟩ [⟨"gke_p_l_c", ⟨"x", "y"⟩⟩]
      rfl (by simp) rfl,
    T.2.2 [] ⟨"gke_p_l_c", ⟨none⟩⟩
      [⟨"gke_p_l_c", ⟨some ⟨"v1", "cmd", "hint", false⟩⟩⟩] rfl (by simp) rfl,
    T2.1 [] ⟨"gke_p_l_c", ⟨"c1", "s1"⟩⟩ [⟨"gke_p_l_c", ⟨"c2", "s2"⟩⟩]
      rfl (by simp) rfl⟩

end GkeMcp
